import Mathlib

/-!
Verification of the FACT repository's launcher and package initializer.

The development is a shallow embedding of two Python source files:

* `src/fact-memory/src/run_server.py` — the `main()` function that resolves
  the sibling server script, forwards the argument vector to it as a child
  process, and propagates the child's termination status;
* `src/fact-memory/src/server/__init__.py` — the package initializer that
  re-exports `HelloWorldMCPServer` and defines `__version__`.

Ambient effects (filesystem existence, the interpreter path, the argument
vector, the outcome of the one `subprocess.run` call) are made explicit as
fields of an environment record, and `main` becomes a pure function from
that environment to a result describing the termination, the diagnostic
messages printed, and the command handed to `subprocess.run` (if any).
-/

/-- Joining a directory and one relative segment, as `pathlib.Path./` does
for a plain segment. -/
def pathJoin (dir seg : String) : String := dir ++ "/" ++ seg

/-- The resolved target script path:
`Path(__file__).parent / "server" / "hello_mcp_server.py"` where
`Path(__file__).parent` is the directory containing the launcher. -/
def serverScriptPath (launcherDir : String) : String :=
  pathJoin (pathJoin launcherDir "server") "hello_mcp_server.py"

/-- Outcome of the single `subprocess.run(cmd, check=True)` call:
the child terminated with a returncode (with `check=True` a non-zero
returncode is surfaced as `CalledProcessError`), a `KeyboardInterrupt`
was delivered while spawning or waiting, or some other exception
(e.g. an `OSError`) was raised by the call. -/
inductive ChildOutcome where
  | exited (code : Int)
  | interrupted
  | raisedOther (desc : String)
deriving DecidableEq, Repr

/-- The ambient state `main()` reads: the directory containing the launcher
script, the process's current working directory (never consulted by the
code, carried to state independence from it), `sys.executable`,
`sys.argv[1:]`, the filesystem existence predicate, and what the one
`subprocess.run` call would result in. -/
structure LaunchEnv where
  launcherDir : String
  cwd : String
  executable : String
  argv : List String
  fsExists : String → Bool
  childOutcome : ChildOutcome

/-- How `main()` itself ends: a `sys.exit(code)` call (normal fall-through
return is `exit 0` for the process), or an exception propagating out of
`main()` unhandled. -/
inductive Termination where
  | exit (code : Int)
  | unhandled (desc : String)
deriving DecidableEq, Repr

/-- Observable result of running `main()`: how it terminated, the diagnostic
lines it printed, and the command vector passed to `subprocess.run`
(`none` when no child invocation was attempted). -/
structure LaunchResult where
  termination : Termination
  messages : List String
  subprocessCmd : Option (List String)
deriving DecidableEq, Repr

/-- Model of `str(e)` for `subprocess.CalledProcessError`: the stdlib
renders the command and either the non-zero exit status or, for a negative
returncode, the terminating signal. -/
def calledProcessErrorStr (cmd : List String) (code : Int) : String :=
  if code < 0 then
    "Command " ++ toString cmd ++ " died with signal " ++ toString (-code) ++ "."
  else
    "Command " ++ toString cmd ++ " returned non-zero exit status " ++ toString code ++ "."

/-- Shallow embedding of `main()` in `run_server.py`:
resolve `server_script`, bail out with status 1 when it does not exist,
otherwise build `cmd = [sys.executable, str(server_script)] + sys.argv[1:]`
and run it, catching exactly `CalledProcessError` (exit with the child's
returncode after a diagnostic) and `KeyboardInterrupt` (exit 0 after a
"stopped by user" message); any other exception propagates. -/
def launcherMain (env : LaunchEnv) : LaunchResult :=
  let server_script := serverScriptPath env.launcherDir
  if ¬ env.fsExists server_script then
    { termination := .exit 1
      messages := ["Error: Server script not found at " ++ server_script]
      subprocessCmd := none }
  else
    let cmd := env.executable :: server_script :: env.argv
    match env.childOutcome with
    | .exited code =>
        if code = 0 then
          { termination := .exit 0
            messages := []
            subprocessCmd := some cmd }
        else
          { termination := .exit code
            messages := ["Error running server: " ++ calledProcessErrorStr cmd code]
            subprocessCmd := some cmd }
    | .interrupted =>
        { termination := .exit 0
          messages := ["\nServer stopped by user"]
          subprocessCmd := some cmd }
    | .raisedOther desc =>
        { termination := .unhandled desc
          messages := []
          subprocessCmd := some cmd }

/-- Exit status and output of the launcher process as a whole. -/
structure ProcessResult where
  exitCode : Int
  messages : List String
deriving DecidableEq, Repr

/-- The launcher process: `main()` run under `if __name__ == "__main__"`,
composed with the Python runtime convention that an exception propagating
out of the program prints a traceback to stderr and terminates the process
with status 1. -/
def runProcess (env : LaunchEnv) : ProcessResult :=
  let r := launcherMain env
  match r.termination with
  | .exit code => { exitCode := code, messages := r.messages }
  | .unhandled desc =>
      { exitCode := 1
        messages := r.messages ++ ["Traceback (most recent call last):\n" ++ desc] }

/-- Module files present in the supplied sources of the `server` package:
only `__init__.py` itself; `hello_mcp_server.py` is absent. -/
def suppliedServerModules : List String := ["__init__"]

/-- The bindings `server/__init__.py` leaves in the package namespace when
it executes to completion: the names bound by its import statement, the
`__all__` list and the `__version__` string. -/
structure PackageExports where
  publicNames : List String
  all : List String
  version : String
deriving DecidableEq, Repr

/-- Shallow embedding of executing `server/__init__.py` against a given set
of sibling modules: the statement
`from .hello_mcp_server import HelloWorldMCPServer` runs first and raises
`ModuleNotFoundError` when the sibling module is absent; only then are
`__all__ = ["HelloWorldMCPServer"]` and `__version__ = "1.0.0"` assigned. -/
def initServerPackage (availableModules : List String) : Except String PackageExports :=
  if "hello_mcp_server" ∈ availableModules then
    .ok { publicNames := ["HelloWorldMCPServer"]
          all := ["HelloWorldMCPServer"]
          version := "1.0.0" }
  else
    .error "ModuleNotFoundError: No module named server.hello_mcp_server"

/-- A concrete environment: script present, child exits 0. -/
def envOk : LaunchEnv :=
  { launcherDir := "/opt/fact/src"
    cwd := "/home/user"
    executable := "/usr/bin/python3"
    argv := ["--port", "8080"]
    fsExists := fun _ => true
    childOutcome := .exited 0 }

/-- A concrete environment: script absent. -/
def envMissing : LaunchEnv :=
  { envOk with fsExists := fun _ => false }

/-- A concrete environment: script present, child exits with status 3. -/
def envFail : LaunchEnv :=
  { envOk with childOutcome := .exited 3 }

/-- A concrete environment: interrupt delivered while waiting on the child. -/
def envInterrupt : LaunchEnv :=
  { envOk with childOutcome := .interrupted }

/-- A concrete environment: `subprocess.run` raises an exception other than
`CalledProcessError` or `KeyboardInterrupt`. -/
def envOsError : LaunchEnv :=
  { envOk with childOutcome := .raisedOther "PermissionError: [Errno 13] Permission denied" }

/-- Claim C1: for every argument vector, the command handed to
`subprocess.run` is exactly the interpreter running the launcher, the
resolved target script path, and then the forwarded arguments in order,
with nothing added, dropped, reordered or transformed. -/
theorem child_cmd_exact (env : LaunchEnv)
    (h : env.fsExists (serverScriptPath env.launcherDir) = true) :
    (launcherMain env).subprocessCmd =
      some (env.executable :: serverScriptPath env.launcherDir :: env.argv) := by
  unfold launcherMain
  simp only [h, not_true_eq_false, if_false]
  cases env.childOutcome with
  | exited code =>
      by_cases hc : code = 0 <;> simp [hc]
  | interrupted => rfl
  | raisedOther d => rfl

/-- Witness for C1 at a concrete environment with `argv = ["--port", "8080"]`. -/
theorem child_cmd_exact_witness :
    envOk.fsExists (serverScriptPath envOk.launcherDir) = true ∧
    (launcherMain envOk).subprocessCmd =
      some (envOk.executable :: serverScriptPath envOk.launcherDir :: envOk.argv) :=
  ⟨rfl, child_cmd_exact envOk rfl⟩

/-- Claim C2: when the resolved script does not exist, the launcher exits
with status 1, prints a diagnostic carrying the resolved path, and never
invokes `subprocess.run`. -/
theorem missing_script_exits_one (env : LaunchEnv)
    (h : env.fsExists (serverScriptPath env.launcherDir) = false) :
    (runProcess env).exitCode = 1 ∧
    (runProcess env).messages =
      ["Error: Server script not found at " ++ serverScriptPath env.launcherDir] ∧
    (launcherMain env).subprocessCmd = none := by
  unfold runProcess launcherMain
  simp [h]

/-- Witness for C2 at a concrete environment whose filesystem has no file. -/
theorem missing_script_exits_one_witness :
    envMissing.fsExists (serverScriptPath envMissing.launcherDir) = false ∧
    (runProcess envMissing).exitCode = 1 ∧
    (runProcess envMissing).messages =
      ["Error: Server script not found at " ++ serverScriptPath envMissing.launcherDir] ∧
    (launcherMain envMissing).subprocessCmd = none :=
  ⟨rfl, missing_script_exits_one envMissing rfl⟩

/-- Claim C3: when the child terminates with a non-zero status `code`, the
launcher prints a diagnostic referencing the failure and exits with exactly
`code`. -/
theorem child_failure_propagated (env : LaunchEnv) (code : Int)
    (h : env.fsExists (serverScriptPath env.launcherDir) = true)
    (hc : env.childOutcome = .exited code) (hne : code ≠ 0) :
    (runProcess env).exitCode = code ∧
    (runProcess env).messages =
      ["Error running server: " ++
        calledProcessErrorStr
          (env.executable :: serverScriptPath env.launcherDir :: env.argv) code] := by
  unfold runProcess launcherMain
  simp [h, hc, hne]

/-- Witness for C3 at a concrete environment whose child exits 3. -/
theorem child_failure_propagated_witness :
    envFail.fsExists (serverScriptPath envFail.launcherDir) = true ∧
    envFail.childOutcome = .exited 3 ∧ (3 : Int) ≠ 0 ∧
    (runProcess envFail).exitCode = 3 ∧
    (runProcess envFail).messages =
      ["Error running server: " ++
        calledProcessErrorStr
          (envFail.executable :: serverScriptPath envFail.launcherDir :: envFail.argv) 3] :=
  ⟨rfl, rfl, by decide,
    child_failure_propagated envFail 3 rfl rfl (by decide)⟩

/-- Claim C4: when a `KeyboardInterrupt` reaches the launcher while it is
spawning or waiting on the child, it prints the "stopped by user" message
and exits with status 0, whatever the child outcome would have been. -/
theorem interrupt_clean_exit (env : LaunchEnv)
    (h : env.fsExists (serverScriptPath env.launcherDir) = true)
    (hc : env.childOutcome = .interrupted) :
    (runProcess env).exitCode = 0 ∧
    (runProcess env).messages = ["\nServer stopped by user"] := by
  unfold runProcess launcherMain
  simp [h, hc]

/-- Witness for C4 at a concrete interrupted environment. -/
theorem interrupt_clean_exit_witness :
    envInterrupt.fsExists (serverScriptPath envInterrupt.launcherDir) = true ∧
    envInterrupt.childOutcome = .interrupted ∧
    (runProcess envInterrupt).exitCode = 0 ∧
    (runProcess envInterrupt).messages = ["\nServer stopped by user"] :=
  ⟨rfl, rfl, interrupt_clean_exit envInterrupt rfl rfl⟩

/-- Claim C5: when the script exists and the child exits 0, the launcher
exits 0 and prints nothing. -/
theorem child_success_clean (env : LaunchEnv)
    (h : env.fsExists (serverScriptPath env.launcherDir) = true)
    (hc : env.childOutcome = .exited 0) :
    (runProcess env).exitCode = 0 ∧ (runProcess env).messages = [] := by
  unfold runProcess launcherMain
  simp [h, hc]

/-- Witness for C5 at a concrete environment whose child exits 0. -/
theorem child_success_clean_witness :
    envOk.fsExists (serverScriptPath envOk.launcherDir) = true ∧
    envOk.childOutcome = .exited 0 ∧
    (runProcess envOk).exitCode = 0 ∧ (runProcess envOk).messages = [] :=
  ⟨rfl, rfl, child_success_clean envOk rfl rfl⟩

/-- Claim C6: on every exit path of the launcher process other than "child
succeeded", a diagnostic is emitted and the exit status is non-zero, except
the user-interrupt path, which reports and exits 0. (On the path where an
uncaught exception escapes `main()`, the runtime's traceback is the
diagnostic and the status is 1.) -/
theorem no_silent_failure (env : LaunchEnv) :
    (env.fsExists (serverScriptPath env.launcherDir) = true ∧
      env.childOutcome = .exited 0)
    ∨ (env.fsExists (serverScriptPath env.launcherDir) = true ∧
        env.childOutcome = .interrupted ∧
        (runProcess env).exitCode = 0 ∧ (runProcess env).messages ≠ [])
    ∨ ((runProcess env).exitCode ≠ 0 ∧ (runProcess env).messages ≠ []) := by
  by_cases hfs : env.fsExists (serverScriptPath env.launcherDir) = true
  · cases hob : env.childOutcome with
    | exited code =>
        by_cases hc : code = 0
        · exact Or.inl ⟨hfs, by rw [hc]⟩
        · refine Or.inr (Or.inr ⟨?_, ?_⟩) <;>
            · unfold runProcess launcherMain
              simp [hfs, hob, hc]
    | interrupted =>
        refine Or.inr (Or.inl ⟨hfs, rfl, ?_, ?_⟩) <;>
          · unfold runProcess launcherMain
            simp [hfs, hob]
    | raisedOther d =>
        refine Or.inr (Or.inr ⟨?_, ?_⟩) <;>
          · unfold runProcess launcherMain
            simp [hfs, hob]
  · have hfs' : env.fsExists (serverScriptPath env.launcherDir) = false := by
      simpa using hfs
    refine Or.inr (Or.inr ⟨?_, ?_⟩) <;>
      · unfold runProcess launcherMain
        simp [hfs']

/-- Claim C7: the target path is exactly the launcher's own directory
joined with the fixed relative path `server/hello_mcp_server.py`, and
nothing `main()` computes — in particular the resolved path and the
constructed child command — changes when only the process's current
working directory changes. -/
theorem cwd_independent (env : LaunchEnv) (c c' : String) :
    serverScriptPath env.launcherDir = env.launcherDir ++ "/server/hello_mcp_server.py" ∧
    launcherMain { env with cwd := c } = launcherMain { env with cwd := c' } := by
  constructor
  · have h1 : ("/" ++ ("server" ++ ("/" ++ "hello_mcp_server.py")) : String) =
        "/server/hello_mcp_server.py" := by decide
    calc serverScriptPath env.launcherDir
        = env.launcherDir ++ ("/" ++ ("server" ++ ("/" ++ "hello_mcp_server.py"))) := by
          simp [serverScriptPath, pathJoin, String.append_assoc]
      _ = env.launcherDir ++ "/server/hello_mcp_server.py" := by rw [h1]
  · cases env
    rfl

/-- Claim C8: whenever the sibling module can be imported, the package
initializer completes binding exactly the one public class name
`HelloWorldMCPServer`, an `__all__` list holding that name and nothing
else, and `__version__ = "1.0.0"`. -/
theorem init_exports_exact (mods : List String)
    (h : "hello_mcp_server" ∈ mods) :
    initServerPackage mods =
      .ok { publicNames := ["HelloWorldMCPServer"]
            all := ["HelloWorldMCPServer"]
            version := "1.0.0" } := by
  unfold initServerPackage
  simp [h]

/-- Witness for C8 with the sibling module present. -/
theorem init_exports_exact_witness :
    "hello_mcp_server" ∈ ["__init__", "hello_mcp_server"] ∧
    initServerPackage ["__init__", "hello_mcp_server"] =
      .ok { publicNames := ["HelloWorldMCPServer"]
            all := ["HelloWorldMCPServer"]
            version := "1.0.0" } :=
  ⟨by decide, init_exports_exact ["__init__", "hello_mcp_server"] (by decide)⟩

/-- Claim C9: `main()` catches only `CalledProcessError` and
`KeyboardInterrupt`; any other exception raised while spawning or waiting
leaves `main()` unhandled, so the launcher prints none of its own
diagnostics and the process ends through the runtime's traceback with
status 1 rather than a status from the exit-code table or the child. -/
theorem other_exception_uncaught (env : LaunchEnv) (desc : String)
    (h : env.fsExists (serverScriptPath env.launcherDir) = true)
    (hc : env.childOutcome = .raisedOther desc) :
    (launcherMain env).termination = Termination.unhandled desc ∧
    (launcherMain env).messages = [] ∧
    (runProcess env).exitCode = 1 ∧
    (runProcess env).messages = ["Traceback (most recent call last):\n" ++ desc] := by
  unfold runProcess launcherMain
  simp [h, hc]

/-- Witness for C9 at a concrete environment with a permission failure. -/
theorem other_exception_uncaught_witness :
    envOsError.fsExists (serverScriptPath envOsError.launcherDir) = true ∧
    envOsError.childOutcome =
      .raisedOther "PermissionError: [Errno 13] Permission denied" ∧
    (launcherMain envOsError).termination =
      Termination.unhandled "PermissionError: [Errno 13] Permission denied" ∧
    (launcherMain envOsError).messages = [] ∧
    (runProcess envOsError).exitCode = 1 ∧
    (runProcess envOsError).messages =
      ["Traceback (most recent call last):\n" ++
        "PermissionError: [Errno 13] Permission denied"] :=
  ⟨rfl, rfl,
    other_exception_uncaught envOsError
      "PermissionError: [Errno 13] Permission denied" rfl rfl⟩

/-- Claim C10: in the supplied sources the `server` package holds no
`hello_mcp_server` module, so executing the package initializer fails at
its very first statement with a module-not-found error and never produces
the re-exported class name or the version string. -/
theorem package_import_fails :
    suppliedServerModules.contains "hello_mcp_server" = false ∧
    initServerPackage suppliedServerModules =
      .error "ModuleNotFoundError: No module named server.hello_mcp_server" :=
  ⟨by decide, rfl⟩
